import Mathlib

/-!
Shallow embedding of the KMN-Chat Cloudflare worker (worker.js), covering the
model-listing handler with its TTL cache and static fallback, the chat relay
handler with its validation chain and timeout/failure status mapping, the
persona-to-system-prompt table, and the CORS allow-origin computation.

JavaScript strings are modelled as Lean `String` (unicode scalar sequences;
the worker only compares and measures ASCII-range data in the properties
below). A JavaScript value that may be absent is modelled as `Option String`,
with JS truthiness: `none` and `some ""` are falsy. Wall-clock instants are
`Int` so that `now - capturedAt` is exact JS subtraction.
-/

namespace KMNChat

/-- JS `a || b` on possibly-absent strings: `b` when `a` is falsy. -/
def jsOr (a b : Option String) : Option String :=
  match a with
  | none => b
  | some s => if s = "" then b else some s

/-- JS `String(x || d)` where `x` is a possibly-absent string and `d` a
string literal default: yields `d` when `x` is falsy. -/
def jsOrStr (a : Option String) (d : String) : String :=
  match a with
  | none => d
  | some s => if s = "" then d else s

/-- JS truthiness of a possibly-absent string. -/
def truthy (a : Option String) : Bool :=
  match a with
  | none => false
  | some s => s ≠ ""

/-- Whitespace recognised by JS `String.prototype.trim` (the code points the
worker can actually receive in its JSON string fields). -/
def isJsWhitespace (c : Char) : Bool :=
  c = ' ' ∨ c = '\t' ∨ c = '\n' ∨ c = '\r' ∨ c = '\x0b' ∨ c = '\x0c'

/-- JS `String.prototype.trim`: strip whitespace from both ends. -/
def jsTrim (s : String) : String :=
  String.mk (((s.data.dropWhile isJsWhitespace).reverse.dropWhile
      isJsWhitespace).reverse)

/-- Does `needle` occur as a contiguous run inside `hay`? -/
def containsSub (hay needle : List Char) : Bool :=
  match hay with
  | [] => needle.isEmpty
  | _ :: t => needle.isPrefixOf hay || containsSub t needle

/-- JS `String.prototype.includes`: substring containment. -/
def jsIncludes (s sub : String) : Bool :=
  containsSub s.data sub.data

/-- JS `String.prototype.toLowerCase` (ASCII range, which covers every
string the persona table compares). -/
def jsToLower (s : String) : String :=
  String.mk (s.data.map Char.toLower)

/-- The worker environment (wrangler vars/secrets read by worker.js).
`MODELS_CACHE_TTL_MS` is modelled as the numeric value of the variable when
it is set and non-empty, `none` otherwise. -/
structure Env where
  OPEN_ROUTER_API_KEY : Option String
  OPENROUTER_BASE_URL : Option String
  MODELS_CACHE_TTL_MS : Option Nat
  ALLOWED_ORIGIN : Option String
  SITE_URL : Option String
  SITE_NAME : Option String
deriving DecidableEq

/-- worker.js line 2: `DEFAULT_MODELS_CACHE_TTL_MS = 300_000`. -/
def DEFAULT_MODELS_CACHE_TTL_MS : Nat := 300000

/-- worker.js line 3: `MAX_PROMPT_CHARS = 8000`. -/
def MAX_PROMPT_CHARS : Nat := 8000

/-- worker.js line 96: the chat relay timer duration, 30000 ms. -/
def CHAT_TIMEOUT_MS : Nat := 30000

/-- One entry of a model list as it appears in the worker: `id` and `name`
fields that each may be absent. -/
structure ModelEntry where
  id : Option String
  name : Option String
deriving DecidableEq

/-- worker.js `fallbackModels()`: the hardcoded static fallback list. -/
def fallbackModels : List ModelEntry :=
  [ ⟨some "openai/gpt-4o-mini", some "GPT-4o mini"⟩,
    ⟨some "google/gemini-2.0-flash-001", some "Gemini 2.0 Flash"⟩,
    ⟨some "anthropic/claude-3.5-haiku", some "Claude 3.5 Haiku"⟩ ]

/-- worker.js line 57: the `.map` step of handleModels, projecting an
upstream entry to an id plus `name || id`. -/
def mapModel (m : ModelEntry) : ModelEntry :=
  ⟨m.id, jsOr m.name m.id⟩

/-- worker.js lines 56-58: map each upstream entry then keep only entries
whose projected `id` is truthy. -/
def projectModels (data : List ModelEntry) : List ModelEntry :=
  (data.map mapModel).filter (fun m => truthy m.id)

/-- The projection as the spec words it: `name ?? id`, i.e. nullish
coalescing, so an empty-string `name` is kept rather than replaced by the
id. Used only to compare the spec text against `projectModels`. -/
def specProjectModels (data : List ModelEntry) : List ModelEntry :=
  (data.map (fun m => ⟨m.id, match m.name with
    | none => m.id
    | some n => some n⟩)).filter (fun m => truthy m.id)

/-- worker.js line 5: the process-wide models cache, a timestamp plus an
optional captured list (`data` is `null` until the first successful fetch). -/
structure ModelsCache where
  capturedAt : Int
  data : Option (List ModelEntry)
deriving DecidableEq

/-- worker.js line 5: initial cache value at process start. -/
def initialCache : ModelsCache := ⟨0, none⟩

/-- worker.js line 38: `Number(env.MODELS_CACHE_TTL_MS || DEFAULT)`. -/
def ttlOf (env : Env) : Int :=
  (env.MODELS_CACHE_TTL_MS.getD DEFAULT_MODELS_CACHE_TTL_MS : Nat)

/-- Outcome of the single outbound `/models` fetch as handleModels observes
it: a thrown network/parse exception, or a completed response with its `ok`
flag and, when the JSON body parses, the `data` field (`some` iff `data` is
an array). -/
inductive UpstreamModels where
  | exn
  | resp (ok : Bool) (data : Option (List ModelEntry))
deriving DecidableEq

/-- Body of a handleModels JSON response: the CONFIG_ERROR envelope, or a
models envelope with the three optional flags (`false` models an absent
key, which is falsy in JS). -/
inductive ModelsBody where
  | configError (error code : String)
  | models (models : List ModelEntry) (cached fallback degraded : Bool)
deriving DecidableEq

/-- A handleModels result: HTTP status plus JSON body. -/
structure ModelsOut where
  status : Nat
  body : ModelsBody
deriving DecidableEq

/-- The `cached` flag of a models envelope (falsy for other bodies). -/
def cachedFlag : ModelsBody → Bool
  | .models _ c _ _ => c
  | _ => false

/-- The model list of a models envelope (empty for the error body, which
carries none). -/
def modelsOf : ModelsBody → List ModelEntry
  | .models ms _ _ _ => ms
  | _ => []

/-- worker.js `handleModels`, lines 33-71, as a function of the environment,
the current cache, `Date.now()`, and the observed upstream outcome; returns
the response together with the cache value after the call. -/
def handleModels (env : Env) (cache : ModelsCache) (now : Int)
    (up : UpstreamModels) : ModelsOut × ModelsCache :=
  if ¬ truthy env.OPEN_ROUTER_API_KEY then
    (⟨500, .configError "OPEN_ROUTER_API_KEY missing" "CONFIG_ERROR"⟩, cache)
  else if cache.data.isSome ∧ now - cache.capturedAt < ttlOf env then
    (⟨200, .models (cache.data.getD []) true false false⟩, cache)
  else
    match up with
    | .exn => (⟨200, .models fallbackModels false true true⟩, cache)
    | .resp ok data =>
      if ¬ ok then
        (⟨200, .models fallbackModels false true false⟩, cache)
      else
        let models := projectModels (data.getD [])
        if models.isEmpty then
          (⟨200, .models fallbackModels false true false⟩, cache)
        else
          (⟨200, .models models false false false⟩, ⟨now, some models⟩)

/-- A parsed chat request body (`invalid` is a JSON parse failure; each
field of a parsed object may be absent). -/
inductive ChatBody where
  | invalid
  | parsed (model prompt persona : Option String)
deriving DecidableEq

/-- Outcome of the outbound `/chat/completions` fetch as handleChat observes
it: a rejection carrying its message (the 30000 ms timer firing aborts the
fetch with reason `upstream_timeout`, which surfaces in this message), or a
completed response with its `ok` flag, whether it has a body stream, and its
status. -/
inductive ChatUpstream where
  | exn (msg : String)
  | resp (ok : Bool) (hasBody : Bool) (status : Nat)
deriving DecidableEq

/-- A handleChat response: a JSON error envelope, the upstream-error
envelope of line 124 (body carries the upstream status), or the 200
pass-through of the upstream byte stream. -/
inductive ChatOut where
  | jsonErr (error : String) (code : Option String) (status : Nat)
  | upstreamErr (upstreamStatus : Nat) (status : Nat)
  | stream (status : Nat)
deriving DecidableEq

/-- HTTP status of a handleChat response. -/
def chatStatus : ChatOut → Nat
  | .jsonErr _ _ s => s
  | .upstreamErr _ s => s
  | .stream s => s

/-- The outbound request body handleChat builds when validation passes. -/
structure OutboundChatReq where
  model : String
  systemPrompt : String
  userPrompt : String
deriving DecidableEq

/-- A handleChat result: the response, plus the outbound call made (`none`
when the handler short-circuited before any network call). -/
structure ChatResult where
  out : ChatOut
  outbound : Option OutboundChatReq
deriving DecidableEq

/-- worker.js `personaPrompt`, lines 339-345: fixed case-insensitive
persona table falling back to the default prompt. -/
def personaPrompt (persona : String) : String :=
  let p := jsToLower (if persona = "" then "default" else persona)
  if p = "sales" then
    "You are a sales assistant. Be persuasive, concise, and CTA-driven while staying honest."
  else if p = "tutor" then
    "You are a tutor. Explain step-by-step, ask check questions, and adapt to learner level."
  else if p = "support" then
    "You are a customer support agent. Be calm, precise, and solution-first."
  else
    "You are Ko Paing style assistant: concise, practical, safe."

/-- worker.js `handleChat`, lines 73-141, as a function of the environment,
the parsed request body, and the observed upstream outcome (consulted only
when validation passes and the outbound call is made). -/
def handleChat (env : Env) (body : ChatBody) (up : ChatUpstream) :
    ChatResult :=
  if ¬ truthy env.OPEN_ROUTER_API_KEY then
    ⟨.jsonErr "OPEN_ROUTER_API_KEY missing" (some "CONFIG_ERROR") 500, none⟩
  else
    match body with
    | .invalid => ⟨.jsonErr "Invalid JSON" none 400, none⟩
    | .parsed m p pe =>
      let model := jsTrim (jsOrStr m "")
      let prompt := jsTrim (jsOrStr p "")
      let persona := jsTrim (jsOrStr pe "default")
      if model = "" then
        ⟨.jsonErr "model is required" none 400, none⟩
      else if prompt = "" then
        ⟨.jsonErr "prompt is required" none 400, none⟩
      else if prompt.length > MAX_PROMPT_CHARS then
        ⟨.jsonErr "prompt exceeds 8000 chars" none 400, none⟩
      else
        let req : OutboundChatReq := ⟨model, personaPrompt persona, prompt⟩
        match up with
        | .exn msg =>
          if jsIncludes msg "upstream_timeout" then
            ⟨.jsonErr "upstream timeout" none 504, some req⟩
          else
            ⟨.jsonErr "network failure" none 502, some req⟩
        | .resp ok hasBody status =>
          if ¬ ok ∨ ¬ hasBody then
            ⟨.upstreamErr status (if status = 0 then 502 else status), some req⟩
          else
            ⟨.stream 200, some req⟩

/-- worker.js `corsHeaders`, lines 347-357: the value of the
access-control-allow-origin header, from the request Origin header (absent
modelled as `none`; the code substitutes the literal `*` for a falsy
header) and the configured allow-list value. -/
def corsAllowOrigin (originHeader : Option String) (env : Env) : String :=
  let origin := jsOrStr originHeader "*"
  let allowed := jsOrStr env.ALLOWED_ORIGIN "*"
  if allowed = "*" then "*"
  else if origin = allowed then allowed
  else "null"

/-- Well-formedness of a cache value: a captured list is never empty. Holds
at process start and is preserved by every handler (see the C10 theorem). -/
def cacheWF (c : ModelsCache) : Bool :=
  match c.data with
  | none => true
  | some ms => ¬ ms.isEmpty

/-! ### Helper lemmas -/

/-- A prompt consisting of `n` copies of the letter a. -/
def promptA (n : Nat) : String := String.mk (List.replicate n 'a')

theorem dropWhile_replicate_ws (n : Nat) :
    (List.replicate n 'a').dropWhile isJsWhitespace = List.replicate n 'a' := by
  cases n with
  | zero => rfl
  | succ k =>
    rw [List.replicate_succ, List.dropWhile_cons]
    have h : isJsWhitespace 'a' = false := by decide
    rw [h]
    simp

theorem jsTrim_promptA (n : Nat) : jsTrim (promptA n) = promptA n := by
  unfold jsTrim promptA
  rw [show (String.mk (List.replicate n 'a')).data = List.replicate n 'a' from rfl,
    dropWhile_replicate_ws, List.reverse_replicate, dropWhile_replicate_ws,
    List.reverse_replicate]

theorem promptA_length (n : Nat) : (promptA n).length = n := by
  show (List.replicate n 'a').length = n
  exact List.length_replicate n 'a'

theorem promptA_ne_empty (n : Nat) (h : 0 < n) : promptA n ≠ "" := by
  intro heq
  have h2 := congrArg String.data heq
  have h3 : List.replicate n 'a' = ([] : List Char) := h2
  rw [List.replicate_eq_nil_iff] at h3
  omega

theorem jsOrStr_some_of_ne (s d : String) (h : s ≠ "") :
    jsOrStr (some s) d = s := by
  simp [jsOrStr, h]

/-- handleChat after all validation passes: the result is determined by the
upstream outcome, and the outbound request is made. -/
theorem handleChat_valid (env : Env) (m p pe : Option String)
    (up : ChatUpstream)
    (hk : truthy env.OPEN_ROUTER_API_KEY = true)
    (hm : jsTrim (jsOrStr m "") ≠ "")
    (hp : jsTrim (jsOrStr p "") ≠ "")
    (hl : ¬ (jsTrim (jsOrStr p "")).length > MAX_PROMPT_CHARS) :
    handleChat env (.parsed m p pe) up =
      (let req : OutboundChatReq := ⟨jsTrim (jsOrStr m ""),
          personaPrompt (jsTrim (jsOrStr pe "default")), jsTrim (jsOrStr p "")⟩
       match up with
       | .exn msg =>
         if jsIncludes msg "upstream_timeout" then
           ⟨.jsonErr "upstream timeout" none 504, some req⟩
         else
           ⟨.jsonErr "network failure" none 502, some req⟩
       | .resp ok hasBody status =>
         if ¬ ok ∨ ¬ hasBody then
           ⟨.upstreamErr status (if status = 0 then 502 else status), some req⟩
         else
           ⟨.stream 200, some req⟩) := by
  cases up <;> simp [handleChat, hk, hm, hp, hl]

/-! ### Claim theorems -/

/-- C1: when the upstream chat call does not complete within the 30 000 ms
timer (the fetch is aborted with reason upstream_timeout, surfacing in the
rejection message), handleChat fails with the distinguishable upstream
timeout error as HTTP 504; any other rejection of the outbound call yields
HTTP 502; and among rejected outbound calls the 504 status occurs exactly
on timeout. -/
theorem chat_timeout_status_distinction (env : Env) (m p pe : Option String)
    (msg : String)
    (hk : truthy env.OPEN_ROUTER_API_KEY = true)
    (hm : jsTrim (jsOrStr m "") ≠ "")
    (hp : jsTrim (jsOrStr p "") ≠ "")
    (hl : ¬ (jsTrim (jsOrStr p "")).length > MAX_PROMPT_CHARS) :
    (jsIncludes msg "upstream_timeout" = true →
      (handleChat env (.parsed m p pe) (.exn msg)).out
        = .jsonErr "upstream timeout" none 504) ∧
    (jsIncludes msg "upstream_timeout" = false →
      (handleChat env (.parsed m p pe) (.exn msg)).out
        = .jsonErr "network failure" none 502) ∧
    (chatStatus (handleChat env (.parsed m p pe) (.exn msg)).out = 504
      ↔ jsIncludes msg "upstream_timeout" = true) ∧
    CHAT_TIMEOUT_MS = 30000 := by
  rw [handleChat_valid env m p pe (.exn msg) hk hm hp hl]
  cases hj : jsIncludes msg "upstream_timeout" <;>
    simp [hj, chatStatus, CHAT_TIMEOUT_MS]

/-- C1 witness at a concrete timed-out and a concrete failed call. -/
theorem chat_timeout_status_distinction_witness :
    (handleChat ⟨some "k", none, none, none, none, none⟩
        (.parsed (some "m") (some "hello") none)
        (.exn "AbortError: upstream_timeout")).out
      = .jsonErr "upstream timeout" none 504 ∧
    (handleChat ⟨some "k", none, none, none, none, none⟩
        (.parsed (some "m") (some "hello") none)
        (.exn "connection reset")).out
      = .jsonErr "network failure" none 502 := by
  constructor
  · exact (chat_timeout_status_distinction ⟨some "k", none, none, none, none,
      none⟩ (some "m") (some "hello") none "AbortError: upstream_timeout"
      (by decide) (by decide) (by decide) (by decide)).1 (by decide)
  · exact (chat_timeout_status_distinction ⟨some "k", none, none, none, none,
      none⟩ (some "m") (some "hello") none "connection reset"
      (by decide) (by decide) (by decide) (by decide)).2.1 (by decide)

/-- C2: on a cache miss, a non-ok upstream /models response, or an ok
response whose parsed body yields zero valid entries, makes handleModels
return the non-empty static fallback list flagged fallback, leaving the
cache unchanged; a thrown network/parse exception returns the same fallback
flagged fallback and degraded, also leaving the cache unchanged. -/
theorem models_fallback_on_upstream_failure (env : Env) (cache : ModelsCache)
    (now : Int)
    (hk : truthy env.OPEN_ROUTER_API_KEY = true)
    (hmiss : ¬ (cache.data.isSome = true ∧
      now - cache.capturedAt < ttlOf env)) :
    (∀ d : Option (List ModelEntry),
      handleModels env cache now (.resp false d)
        = (⟨200, .models fallbackModels false true false⟩, cache)) ∧
    (∀ d : Option (List ModelEntry), projectModels (d.getD []) = [] →
      handleModels env cache now (.resp true d)
        = (⟨200, .models fallbackModels false true false⟩, cache)) ∧
    (handleModels env cache now .exn
      = (⟨200, .models fallbackModels false true true⟩, cache)) ∧
    fallbackModels ≠ [] := by
  refine ⟨?_, ?_, ?_, by decide⟩
  · intro d
    simp [handleModels, hk, hmiss]
  · intro d hd
    simp [handleModels, hk, hmiss, hd]
  · simp [handleModels, hk, hmiss]

/-- C2 witness at a concrete environment and empty cache. -/
theorem models_fallback_on_upstream_failure_witness :
    (handleModels ⟨some "k", none, none, none, none, none⟩ initialCache 0
        (.resp false none)
      = (⟨200, .models fallbackModels false true false⟩, initialCache)) ∧
    (handleModels ⟨some "k", none, none, none, none, none⟩ initialCache 0
        (.resp true (some [⟨none, some "unnamed"⟩]))
      = (⟨200, .models fallbackModels false true false⟩, initialCache)) ∧
    (handleModels ⟨some "k", none, none, none, none, none⟩ initialCache 0 .exn
      = (⟨200, .models fallbackModels false true true⟩, initialCache)) := by
  have h := models_fallback_on_upstream_failure
    ⟨some "k", none, none, none, none, none⟩ initialCache 0
    (by decide) (by decide)
  exact ⟨h.1 none, h.2.1 (some [⟨none, some "unnamed"⟩]) (by decide), h.2.2.1⟩

/-- C5: handleChat validates model-empty, then prompt-empty, then
prompt-too-long, in that order; in particular an input with empty model and
empty prompt yields the 400 error naming the model, not the prompt. -/
theorem chat_validation_order (env : Env) (m p pe : Option String)
    (up : ChatUpstream)
    (hk : truthy env.OPEN_ROUTER_API_KEY = true) :
    (jsTrim (jsOrStr m "") = "" →
      (handleChat env (.parsed m p pe) up).out
        = .jsonErr "model is required" none 400) ∧
    (jsTrim (jsOrStr m "") ≠ "" → jsTrim (jsOrStr p "") = "" →
      (handleChat env (.parsed m p pe) up).out
        = .jsonErr "prompt is required" none 400) ∧
    (jsTrim (jsOrStr m "") ≠ "" → jsTrim (jsOrStr p "") ≠ "" →
      (jsTrim (jsOrStr p "")).length > MAX_PROMPT_CHARS →
      (handleChat env (.parsed m p pe) up).out
        = .jsonErr "prompt exceeds 8000 chars" none 400) := by
  refine ⟨?_, ?_, ?_⟩
  · intro hm
    simp [handleChat, hk, hm]
  · intro hm hp
    simp [handleChat, hk, hm, hp]
  · intro hm hp hl
    simp [handleChat, hk, hm, hp, hl]

/-- C5 witness: empty model and empty prompt yield the model error. -/
theorem chat_validation_order_witness :
    (handleChat ⟨some "k", none, none, none, none, none⟩
        (.parsed (some "") (some "") none) (.resp true true 200)).out
      = .jsonErr "model is required" none 400 :=
  (chat_validation_order ⟨some "k", none, none, none, none, none⟩
    (some "") (some "") none (.resp true true 200) (by decide)).1 (by decide)

/-- C3 counterexample: with the credential configured and an empty cache,
two calls 1 ms apart (well within the default 300 000 ms ttl) whose
upstream outcome is the same non-ok response both return the fallback list;
the second call does not return cached=true, refuting the claim as stated
for its universal "any two calls" reading. -/
theorem models_cache_freshness_cex :
    (1 : Int) - 0 < ttlOf ⟨some "k", none, none, none, none, none⟩ ∧
    modelsOf (handleModels ⟨some "k", none, none, none, none, none⟩
        (handleModels ⟨some "k", none, none, none, none, none⟩
          initialCache 0 (.resp false none)).2
        1 (.resp false none)).1.body
      = modelsOf (handleModels ⟨some "k", none, none, none, none, none⟩
          initialCache 0 (.resp false none)).1.body ∧
    cachedFlag (handleModels ⟨some "k", none, none, none, none, none⟩
        (handleModels ⟨some "k", none, none, none, none, none⟩
          initialCache 0 (.resp false none)).2
        1 (.resp false none)).1.body = false := by
  decide

/-- C3 amended: if the first of the two calls successfully fetched fresh
models from upstream (returned with cached=false and no fallback flag),
then a second call within ttl milliseconds of it returns cached=true with
the model list identical to the one returned by the first call, leaving the
cache unchanged. -/
theorem models_cache_freshness (env : Env) (cache : ModelsCache)
    (now1 now2 : Int) (up1 up2 : UpstreamModels) (ms : List ModelEntry)
    (h1 : (handleModels env cache now1 up1).1.body
      = .models ms false false false)
    (hwin : now2 - now1 < ttlOf env) :
    handleModels env (handleModels env cache now1 up1).2 now2 up2
      = (⟨200, .models ms true false false⟩,
         (handleModels env cache now1 up1).2) := by
  by_cases hk : truthy env.OPEN_ROUTER_API_KEY = true
  · by_cases hhit : cache.data.isSome = true ∧
        now1 - cache.capturedAt < ttlOf env
    · exfalso
      simp [handleModels, hk, hhit] at h1
    · cases up1 with
      | exn =>
        exfalso
        simp [handleModels, hk, hhit] at h1
      | resp ok d =>
        cases ok with
        | false =>
          exfalso
          simp [handleModels, hk, hhit] at h1
        | true =>
          by_cases he : (projectModels (d.getD [])).isEmpty = true
          · exfalso
            simp [handleModels, hk, hhit, he] at h1
          · have hne : projectModels (d.getD []) ≠ [] := fun hh =>
              he (List.isEmpty_iff.mpr hh)
            have hms : projectModels (d.getD []) = ms := by
              simp [handleModels, hk, hhit, he] at h1
              exact h1
            have hmsne : ms ≠ [] := hms ▸ hne
            have hc2 : (handleModels env cache now1 (.resp true d)).2
                = ⟨now1, some ms⟩ := by
              simp [handleModels, hk, hhit, hne, hms, hmsne,
                List.isEmpty_iff]
            rw [hc2]
            simp [handleModels, hk, hwin]
  · exfalso
    simp [handleModels, hk] at h1

/-- C3 amended witness: a fresh success at time 0, then a call at time 1. -/
theorem models_cache_freshness_witness :
    handleModels ⟨some "k", none, none, none, none, none⟩
        (handleModels ⟨some "k", none, none, none, none, none⟩
          initialCache 0 (.resp true (some [⟨some "m1", none⟩]))).2
        1 .exn
      = (⟨200, .models [⟨some "m1", some "m1"⟩] true false false⟩,
         (handleModels ⟨some "k", none, none, none, none, none⟩
           initialCache 0 (.resp true (some [⟨some "m1", none⟩]))).2) :=
  models_cache_freshness ⟨some "k", none, none, none, none, none⟩
    initialCache 0 1 (.resp true (some [⟨some "m1", none⟩])) .exn
    [⟨some "m1", some "m1"⟩] (by decide) (by decide)

/-- C4 counterexample: on a successful upstream response containing the
single entry with id m1 and empty-string name, handleModels returns the
entry with name m1 (the code uses JS or-else, under which an empty name
falls back to the id), while the projection the claim words as nullish
coalescing keeps the empty name; the two disagree. -/
theorem models_projection_cex :
    modelsOf (handleModels ⟨some "k", none, none, none, none, none⟩
        initialCache 0 (.resp true (some [⟨some "m1", some ""⟩]))).1.body
      = [⟨some "m1", some "m1"⟩] ∧
    specProjectModels [⟨some "m1", some ""⟩] = [⟨some "m1", some ""⟩] ∧
    modelsOf (handleModels ⟨some "k", none, none, none, none, none⟩
        initialCache 0 (.resp true (some [⟨some "m1", some ""⟩]))).1.body
      ≠ specProjectModels [⟨some "m1", some ""⟩] := by
  decide

/-- C4 amended: on a cache miss, a successful upstream /models response
with at least one valid entry is projected entrywise to id plus
name-or-else-id (JS falsy or: an absent or empty name falls back to the
id), entries whose id is not truthy are dropped, the cache is replaced
wholesale with the pair of the current time and the projected list, and the
result is returned with cached=false. -/
theorem models_fresh_success_projection (env : Env) (cache : ModelsCache)
    (now : Int) (d : Option (List ModelEntry))
    (hk : truthy env.OPEN_ROUTER_API_KEY = true)
    (hmiss : ¬ (cache.data.isSome = true ∧
      now - cache.capturedAt < ttlOf env))
    (hne : projectModels (d.getD []) ≠ []) :
    handleModels env cache now (.resp true d)
      = (⟨200, .models (projectModels (d.getD [])) false false false⟩,
         ⟨now, some (projectModels (d.getD []))⟩) ∧
    projectModels (d.getD [])
      = ((d.getD []).map mapModel).filter (fun m => truthy m.id) ∧
    (∀ m : ModelEntry, mapModel m = ⟨m.id, jsOr m.name m.id⟩) := by
  refine ⟨?_, rfl, fun _ => rfl⟩
  have he : (projectModels (d.getD [])).isEmpty = false := by
    simp [List.isEmpty_iff, hne]
  simp [handleModels, hk, hmiss, he]

/-- C4 amended witness: one valid entry, one entry lacking an id. -/
theorem models_fresh_success_projection_witness :
    handleModels ⟨some "k", none, none, none, none, none⟩ initialCache 7
        (.resp true (some [⟨some "m1", some ""⟩, ⟨none, some "x"⟩]))
      = (⟨200, .models [⟨some "m1", some "m1"⟩] false false false⟩,
         ⟨7, some [⟨some "m1", some "m1"⟩]⟩) := by
  have h := models_fresh_success_projection
    ⟨some "k", none, none, none, none, none⟩ initialCache 7
    (some [⟨some "m1", some ""⟩, ⟨none, some "x"⟩])
    (by decide) (by decide) (by decide)
  exact h.1

/-- C6: a chat request whose trimmed prompt has exactly 8000 characters
passes validation and reaches upstream; one of 8001 characters fails with
the prompt-too-large 400 error and no outbound call is made; and in
general an outbound call is only ever made when the credential is set, the
body parsed, and every validation check passed. -/
theorem chat_prompt_boundary (env : Env) (m p pe : Option String)
    (up : ChatUpstream)
    (hk : truthy env.OPEN_ROUTER_API_KEY = true)
    (hm : jsTrim (jsOrStr m "") ≠ "") :
    ((jsTrim (jsOrStr p "")).length = 8000 →
      (handleChat env (.parsed m p pe) up).outbound
        = some ⟨jsTrim (jsOrStr m ""),
            personaPrompt (jsTrim (jsOrStr pe "default")),
            jsTrim (jsOrStr p "")⟩) ∧
    ((jsTrim (jsOrStr p "")).length = 8001 →
      handleChat env (.parsed m p pe) up
        = ⟨.jsonErr "prompt exceeds 8000 chars" none 400, none⟩) ∧
    (∀ (env2 : Env) (b : ChatBody) (u2 : ChatUpstream)
        (r : OutboundChatReq),
      (handleChat env2 b u2).outbound = some r →
      truthy env2.OPEN_ROUTER_API_KEY = true ∧
      ∃ m2 p2 pe2, b = .parsed m2 p2 pe2 ∧
        jsTrim (jsOrStr m2 "") ≠ "" ∧ jsTrim (jsOrStr p2 "") ≠ "" ∧
        (jsTrim (jsOrStr p2 "")).length ≤ MAX_PROMPT_CHARS) := by
  refine ⟨?_, ?_, ?_⟩
  · intro h8
    have hp : jsTrim (jsOrStr p "") ≠ "" := by
      intro hh
      rw [hh] at h8
      exact absurd h8 (by decide)
    have hl : ¬ (jsTrim (jsOrStr p "")).length > MAX_PROMPT_CHARS := by
      rw [h8]
      decide
    rw [handleChat_valid env m p pe up hk hm hp hl]
    cases up <;> simp [apply_ite ChatResult.outbound]
  · intro h8
    have hp : jsTrim (jsOrStr p "") ≠ "" := by
      intro hh
      rw [hh] at h8
      exact absurd h8 (by decide)
    have hl : (jsTrim (jsOrStr p "")).length > MAX_PROMPT_CHARS := by
      rw [h8]
      decide
    simp [handleChat, hk, hm, hp, hl]
  · intro env2 b u2 r h
    by_cases hk2 : truthy env2.OPEN_ROUTER_API_KEY = true
    · cases b with
      | invalid =>
        exfalso
        simp [handleChat, hk2] at h
      | parsed m2 p2 pe2 =>
        by_cases hm2 : jsTrim (jsOrStr m2 "") = ""
        · exfalso
          simp [handleChat, hk2, hm2] at h
        · by_cases hp2 : jsTrim (jsOrStr p2 "") = ""
          · exfalso
            simp [handleChat, hk2, hm2, hp2] at h
          · by_cases hl2 : (jsTrim (jsOrStr p2 "")).length > MAX_PROMPT_CHARS
            · exfalso
              simp [handleChat, hk2, hm2, hp2, hl2] at h
            · exact ⟨hk2, m2, p2, pe2, rfl, hm2, hp2, Nat.not_lt.mp hl2⟩
    · exfalso
      simp [handleChat, hk2] at h

/-- C6 witness at prompts of 8000 and 8001 letters. -/
theorem chat_prompt_boundary_witness :
    (handleChat ⟨some "k", none, none, none, none, none⟩
        (.parsed (some "m") (some (promptA 8000)) none)
        (.resp true true 200)).outbound
      = some ⟨"m", personaPrompt "default", promptA 8000⟩ ∧
    handleChat ⟨some "k", none, none, none, none, none⟩
        (.parsed (some "m") (some (promptA 8001)) none)
        (.resp true true 200)
      = ⟨.jsonErr "prompt exceeds 8000 chars" none 400, none⟩ := by
  have hA : jsOrStr (some (promptA 8000)) "" = promptA 8000 :=
    jsOrStr_some_of_ne _ _ (promptA_ne_empty 8000 (by decide))
  have hB : jsOrStr (some (promptA 8001)) "" = promptA 8001 :=
    jsOrStr_some_of_ne _ _ (promptA_ne_empty 8001 (by decide))
  have e1 : jsTrim (jsOrStr (some "m") "") = "m" := by decide
  have e2 : jsTrim (jsOrStr (none : Option String) "default")
      = "default" := by decide
  constructor
  · have hlen : (jsTrim (jsOrStr (some (promptA 8000)) "")).length
        = 8000 := by
      rw [hA, jsTrim_promptA, promptA_length]
    have h1 := (chat_prompt_boundary
      ⟨some "k", none, none, none, none, none⟩
      (some "m") (some (promptA 8000)) none (.resp true true 200)
      (by decide) (by decide)).1 hlen
    rw [e1, e2, hA, jsTrim_promptA] at h1
    exact h1
  · have hlen : (jsTrim (jsOrStr (some (promptA 8001)) "")).length
        = 8001 := by
      rw [hB, jsTrim_promptA, promptA_length]
    exact (chat_prompt_boundary
      ⟨some "k", none, none, none, none, none⟩
      (some "m") (some (promptA 8001)) none (.resp true true 200)
      (by decide) (by decide)).2.1 hlen

/-- Whenever handleChat makes an outbound call, the system message of that
call is the persona prompt of the trimmed persona field (defaulted). -/
theorem outbound_systemPrompt (env : Env) (m p pe : Option String)
    (up : ChatUpstream) (r : OutboundChatReq)
    (h : (handleChat env (.parsed m p pe) up).outbound = some r) :
    r.systemPrompt = personaPrompt (jsTrim (jsOrStr pe "default")) := by
  by_cases hk : truthy env.OPEN_ROUTER_API_KEY = true
  · by_cases hm : jsTrim (jsOrStr m "") = ""
    · exfalso
      simp [handleChat, hk, hm] at h
    · by_cases hp : jsTrim (jsOrStr p "") = ""
      · exfalso
        simp [handleChat, hk, hm, hp] at h
      · by_cases hl : (jsTrim (jsOrStr p "")).length > MAX_PROMPT_CHARS
        · exfalso
          simp [handleChat, hk, hm, hp, hl] at h
        · rw [handleChat_valid env m p pe up hk hm hp hl] at h
          cases up <;>
            simp [apply_ite ChatResult.outbound] at h <;>
            subst h <;> rfl
  · exfalso
    simp [handleChat, hk] at h

/-- C7: the persona table is fixed and case-insensitive: any string whose
lower-casing is sales, tutor or support selects that fixed prompt; any
other persona string yields exactly the prompt of persona default; and a
chat request with an absent persona field produces an outbound system
prompt equal to the default persona prompt. -/
theorem persona_table :
    (∀ s : String, jsToLower s = "sales" → personaPrompt s
      = "You are a sales assistant. Be persuasive, concise, and CTA-driven while staying honest.") ∧
    (∀ s : String, jsToLower s = "tutor" → personaPrompt s
      = "You are a tutor. Explain step-by-step, ask check questions, and adapt to learner level.") ∧
    (∀ s : String, jsToLower s = "support" → personaPrompt s
      = "You are a customer support agent. Be calm, precise, and solution-first.") ∧
    (∀ s : String, jsToLower s ≠ "sales" → jsToLower s ≠ "tutor" →
      jsToLower s ≠ "support" → personaPrompt s = personaPrompt "default") ∧
    (∀ (env : Env) (m p : Option String) (up : ChatUpstream)
        (r : OutboundChatReq),
      (handleChat env (.parsed m p none) up).outbound = some r →
      r.systemPrompt = personaPrompt "default") := by
  have hd : personaPrompt "default"
      = "You are Ko Paing style assistant: concise, practical, safe." := by
    decide
  refine ⟨?_, ?_, ?_, ?_, ?_⟩
  · intro s h
    have hs : s ≠ "" := by
      intro he
      rw [he] at h
      exact absurd h (by decide)
    simp [personaPrompt, hs, h]
  · intro s h
    have hs : s ≠ "" := by
      intro he
      rw [he] at h
      exact absurd h (by decide)
    simp [personaPrompt, hs, h]
  · intro s h
    have hs : s ≠ "" := by
      intro he
      rw [he] at h
      exact absurd h (by decide)
    simp [personaPrompt, hs, h]
  · intro s h1 h2 h3
    by_cases hs : s = ""
    · rw [hs]
      decide
    · rw [hd]
      simp [personaPrompt, hs, h1, h2, h3]
  · intro env m p up r h
    rw [outbound_systemPrompt env m p none up r h]
    decide

/-- C7 witness at cased and unrecognized personas, and an absent field. -/
theorem persona_table_witness :
    personaPrompt "SALES"
      = "You are a sales assistant. Be persuasive, concise, and CTA-driven while staying honest." ∧
    personaPrompt "Tutor"
      = "You are a tutor. Explain step-by-step, ask check questions, and adapt to learner level." ∧
    personaPrompt "sUppOrt"
      = "You are a customer support agent. Be calm, precise, and solution-first." ∧
    personaPrompt "pirate" = personaPrompt "default" ∧
    (⟨"m", personaPrompt "pirate", "hi"⟩
        : OutboundChatReq).systemPrompt = personaPrompt "default" :=
  ⟨persona_table.1 "SALES" (by decide),
    persona_table.2.1 "Tutor" (by decide),
    persona_table.2.2.1 "sUppOrt" (by decide),
    persona_table.2.2.2.1 "pirate" (by decide) (by decide) (by decide),
    persona_table.2.2.2.2 ⟨some "k", none, none, none, none, none⟩
      (some "m") (some "hi") (.resp true true 200)
      ⟨"m", personaPrompt "pirate", "hi"⟩ (by decide)⟩

/-- C8: the only handler that touches the process-wide models cache is
handleModels, and every call either leaves the cache unchanged or replaces
it wholesale, in one assignment, with a freshly constructed pair of the
current time and a non-empty projected list. -/
theorem cache_atomic_replace (env : Env) (cache : ModelsCache) (now : Int)
    (up : UpstreamModels) :
    (handleModels env cache now up).2 = cache ∨
    ∃ ms : List ModelEntry, ms ≠ [] ∧
      (handleModels env cache now up).2 = ⟨now, some ms⟩ := by
  by_cases hk : truthy env.OPEN_ROUTER_API_KEY = true
  · by_cases hhit : cache.data.isSome = true ∧
        now - cache.capturedAt < ttlOf env
    · left
      simp [handleModels, hk, hhit]
    · cases up with
      | exn =>
        left
        simp [handleModels, hk, hhit]
      | resp ok d =>
        cases ok with
        | false =>
          left
          simp [handleModels, hk, hhit]
        | true =>
          by_cases he : (projectModels (d.getD [])).isEmpty = true
          · left
            simp [handleModels, hk, hhit, he]
          · right
            have hne : projectModels (d.getD []) ≠ [] := fun hh =>
              he (List.isEmpty_iff.mpr hh)
            refine ⟨projectModels (d.getD []), hne, ?_⟩
            simp [handleModels, hk, hhit, hne, List.isEmpty_iff]
  · left
    simp [handleModels, hk]

/-- C9: the access-control-allow-origin value echoes the request Origin
only when it equals the configured allow-list value; otherwise it is the
star (when the configured value is absent, empty or the star itself) or
the literal string null (when the Origin does not match the configured
value). -/
theorem cors_allow_origin_policy (originHeader : Option String)
    (env : Env) :
    (jsOrStr env.ALLOWED_ORIGIN "*" = "*" →
      corsAllowOrigin originHeader env = "*") ∧
    (jsOrStr env.ALLOWED_ORIGIN "*" ≠ "*" →
      jsOrStr originHeader "*" = jsOrStr env.ALLOWED_ORIGIN "*" →
      corsAllowOrigin originHeader env = jsOrStr originHeader "*") ∧
    (jsOrStr env.ALLOWED_ORIGIN "*" ≠ "*" →
      jsOrStr originHeader "*" ≠ jsOrStr env.ALLOWED_ORIGIN "*" →
      corsAllowOrigin originHeader env = "null") := by
  refine ⟨?_, ?_, ?_⟩
  · intro h1
    simp [corsAllowOrigin, h1]
  · intro h1 h2
    simp [corsAllowOrigin, h1, h2]
  · intro h1 h2
    simp [corsAllowOrigin, h1, h2]

/-- C9 witness: the three regimes at concrete origins. -/
theorem cors_allow_origin_policy_witness :
    corsAllowOrigin (some "https://a.example")
      ⟨none, none, none, none, none, none⟩ = "*" ∧
    corsAllowOrigin (some "https://a.example")
      ⟨none, none, none, some "https://a.example", none, none⟩
      = "https://a.example" ∧
    corsAllowOrigin (some "https://b.example")
      ⟨none, none, none, some "https://a.example", none, none⟩
      = "null" := by
  refine ⟨(cors_allow_origin_policy (some "https://a.example")
      ⟨none, none, none, none, none, none⟩).1 (by decide), ?_, ?_⟩
  · have h := (cors_allow_origin_policy (some "https://a.example")
      ⟨none, none, none, some "https://a.example", none, none⟩).2.1
      (by decide) (by decide)
    rw [h]
    decide
  · exact (cors_allow_origin_policy (some "https://b.example")
      ⟨none, none, none, some "https://a.example", none, none⟩).2.2
      (by decide) (by decide)

/-- C10: starting from a well-formed cache (captured lists are non-empty,
as at process start), whenever the credential is configured every
handleModels call returns status 200 with a non-empty models list —
whether it hit the cache, fetched fresh models, saw a non-ok status or an
invalid payload, or caught an exception — the missing-credential branch is
the only non-200 path, and well-formedness is preserved. -/
theorem models_ok_nonempty (env : Env) (cache : ModelsCache) (now : Int)
    (up : UpstreamModels) (hwf : cacheWF cache = true) :
    (truthy env.OPEN_ROUTER_API_KEY = true →
      (handleModels env cache now up).1.status = 200 ∧
      modelsOf (handleModels env cache now up).1.body ≠ []) ∧
    (truthy env.OPEN_ROUTER_API_KEY = false →
      (handleModels env cache now up).1.status = 500) ∧
    cacheWF (handleModels env cache now up).2 = true := by
  by_cases hk : truthy env.OPEN_ROUTER_API_KEY = true
  · refine ⟨fun _ => ?_, fun hf => absurd (hk.symm.trans hf) (by decide),
      ?_⟩
    · by_cases hhit : cache.data.isSome = true ∧
          now - cache.capturedAt < ttlOf env
      · obtain ⟨ms, hms⟩ := Option.isSome_iff_exists.mp hhit.1
        have hnil : ms ≠ [] := by
          unfold cacheWF at hwf
          rw [hms] at hwf
          simpa using hwf
        refine ⟨by simp [handleModels, hk, hhit], ?_⟩
        simp [handleModels, hk, hhit, hms, modelsOf, hnil]
      · cases up with
        | exn =>
          exact ⟨by simp [handleModels, hk, hhit],
            by simp [handleModels, hk, hhit, modelsOf, fallbackModels]⟩
        | resp ok d =>
          cases ok with
          | false =>
            exact ⟨by simp [handleModels, hk, hhit],
              by simp [handleModels, hk, hhit, modelsOf, fallbackModels]⟩
          | true =>
            by_cases he : (projectModels (d.getD [])).isEmpty = true
            · exact ⟨by simp [handleModels, hk, hhit, he],
                by simp [handleModels, hk, hhit, he, modelsOf,
                  fallbackModels]⟩
            · have hne : projectModels (d.getD []) ≠ [] := fun hh =>
                he (List.isEmpty_iff.mpr hh)
              refine ⟨by simp [handleModels, hk, hhit, hne,
                List.isEmpty_iff], ?_⟩
              simp [handleModels, hk, hhit, hne, List.isEmpty_iff,
                modelsOf]
    · by_cases hhit : cache.data.isSome = true ∧
          now - cache.capturedAt < ttlOf env
      · simp [handleModels, hk, hhit, hwf]
      · cases up with
        | exn => simp [handleModels, hk, hhit, hwf]
        | resp ok d =>
          cases ok with
          | false => simp [handleModels, hk, hhit, hwf]
          | true =>
            by_cases he : (projectModels (d.getD [])).isEmpty = true
            · simp [handleModels, hk, hhit, he, hwf]
            · have hne : projectModels (d.getD []) ≠ [] := fun hh =>
                he (List.isEmpty_iff.mpr hh)
              simp [handleModels, hk, hhit, hne, List.isEmpty_iff,
                cacheWF]
  · have hk2 : truthy env.OPEN_ROUTER_API_KEY = false :=
      Bool.not_eq_true _ ▸ (by simpa using hk)
    refine ⟨fun ht => absurd ht hk, fun _ => ?_, ?_⟩
    · simp [handleModels, hk]
    · simp [handleModels, hk, hwf]

/-- C10 witness: the fallback path at the initial cache returns 200 with a
non-empty list. -/
theorem models_ok_nonempty_witness :
    (handleModels ⟨some "k", none, none, none, none, none⟩
        initialCache 0 .exn).1.status = 200 ∧
    modelsOf (handleModels ⟨some "k", none, none, none, none, none⟩
        initialCache 0 .exn).1.body ≠ [] :=
  (models_ok_nonempty ⟨some "k", none, none, none, none, none⟩
    initialCache 0 .exn (by decide)).1 (by decide)

end KMNChat
